import Mathlib

/-!
Shallow embedding of the aitool-json SDK (`sdk/aitool.py`): the tool
document model, spec parsing, the execution engine with error recovery
(retry with backoff, wait and retry), trigger matching and the tool
registry.  Python exceptions are modelled as values of `PyError`
(exception type name plus stringified message), fallible code returns
`Except`, and the observable side effects of a run (resolver calls,
callable invocations, `time.sleep` durations, warning-level log lines)
are threaded through an explicit `ExecState`.  Schemas and JSON values
are abstract type parameters `S` and `V`; the external `jsonschema`
validator is a function `S → V → Option String` returning `none` for a
valid document and `some diagnostic` for an invalid one.
-/

namespace AIToolJson

/-- A Python exception as observed by the engine: the exception type
name (`type(e).__name__`) and the stringified message (`str(e)`). -/
structure PyError where
  typeName : String
  msg : String
deriving DecidableEq, Repr

/-! ### Python truthiness helpers

`x or d` in Python yields `d` when `x` is falsy (`None`, `0`, `0.0`,
`""`, `[]`).  These helpers mirror that on optional values. -/

/-- Python `x or d` for an optional integer (`None` and `0` are falsy). -/
def pyOrNat (x : Option Nat) (d : Nat) : Nat :=
  match x with
  | none => d
  | some n => if n = 0 then d else n

/-- Python `x or d` for an optional list (`None` and `[]` are falsy). -/
def pyOrList (x : Option (List Nat)) (d : List Nat) : List Nat :=
  match x with
  | none => d
  | some l => if l = [] then d else l

/-- Python `x or d` for an optional float (`None` and `0.0` are falsy);
floats that the recovery configuration can hold are modelled as `Rat`. -/
def pyOrRat (x : Option Rat) (d : Rat) : Rat :=
  match x with
  | none => d
  | some r => if r = 0 then d else r

/-- Python `x or d` for an optional string (`None` and `""` are falsy). -/
def pyOrStr (x : Option String) (d : String) : String :=
  match x with
  | none => d
  | some s => if s = "" then d else s

/-! ### Substring containment (Python `needle in hay` on strings) -/

/-- `leadsWith n l` is true when the character list `l` starts with `n`. -/
def leadsWith : List Char → List Char → Bool
  | [], _ => true
  | _ :: _, [] => false
  | c :: cs, d :: ds => c == d && leadsWith cs ds

/-- `occursIn n l` is true when `n` occurs contiguously inside `l`
(Python `n in l` on strings; the empty needle always matches). -/
def occursIn : List Char → List Char → Bool
  | needle, [] => leadsWith needle []
  | needle, c :: cs => leadsWith needle (c :: cs) || occursIn needle cs

/-- Python `needle in hay` on strings. -/
def pyIn (needle hay : String) : Bool :=
  occursIn needle.toList hay.toList

/-- Specification-level substring relation: `needle` occurs contiguously
inside `hay`. -/
def SubstrOf (needle hay : String) : Prop :=
  ∃ pre post : List Char, hay.toList = pre ++ needle.toList ++ post

/-- Python `s.split()` : split on runs of whitespace, discarding empty
pieces. -/
def pySplit (s : String) : List String :=
  (s.split Char.isWhitespace).filter (fun w => w ≠ "")

/-! ### Data model (`ToolStatus` is unused by the engine and omitted) -/

/-- `RecoveryStrategy` enumeration. -/
inductive RecoveryStrategy where
  | retry
  | retry_with_backoff
  | wait_and_retry
  | alternate_tool
  | fail
  | prompt_user
deriving DecidableEq, Repr

/-- `RecoveryStrategy(value)`: look a raw string up in the enumeration;
`none` models the `ValueError` Python raises for an unrecognized value. -/
def RecoveryStrategy.ofString : String → Option RecoveryStrategy
  | "retry" => some RecoveryStrategy.retry
  | "retry_with_backoff" => some RecoveryStrategy.retry_with_backoff
  | "wait_and_retry" => some RecoveryStrategy.wait_and_retry
  | "alternate_tool" => some RecoveryStrategy.alternate_tool
  | "fail" => some RecoveryStrategy.fail
  | "prompt_user" => some RecoveryStrategy.prompt_user
  | _ => none

/-- `ToolManifest` dataclass. -/
structure ToolManifest where
  id : String
  name : String
  version : String
  display_name : Option String
  description : String
  category : String
  tags : List String
  provider : List (String × String)
deriving DecidableEq, Repr

/-- `ErrorRecovery` dataclass. -/
structure ErrorRecovery where
  error_type : String
  error_code : Option String
  strategy : RecoveryStrategy
  max_retries : Option Nat
  backoff_ms : Option (List Nat)
  wait_seconds : Option Rat
  fallback_tool : Option String
  message_to_user : Option String
deriving DecidableEq, Repr

/-- Raw `manifest` section of a tool document.  Keys the source reads
with `data[k]` (required: `id`, `name`, `version`, `category`) are total
fields; keys read with `data.get(k, default)` are `Option` fields with
the default applied in `ToolManifest.fromDict`. -/
structure ManifestDoc where
  id : String
  name : String
  version : String
  display_name : Option String
  description : Option String
  category : String
  tags : Option (List String)
  provider : Option (List (String × String))
deriving DecidableEq, Repr

/-- `ToolManifest.from_dict`. -/
def ToolManifest.fromDict (m : ManifestDoc) : ToolManifest :=
  { id := m.id
    name := m.name
    version := m.version
    display_name := m.display_name
    description := m.description.getD ""
    category := m.category
    tags := m.tags.getD []
    provider := m.provider.getD [] }

/-- Raw `recovery` sub-dict of an `error_handling` entry: `strategy` is
read with `[...]` (required), the rest with `.get`. -/
structure RecoveryDoc where
  strategy : String
  max_retries : Option Nat
  backoff_ms : Option (List Nat)
  wait_seconds : Option Rat
  fallback_tool : Option String
  message_to_user : Option String
deriving DecidableEq, Repr

/-- Raw `error_handling` entry: `error_type` and `recovery` are required
keys, `error_code` is read with `.get`. -/
structure ErrorHandlerDoc where
  error_type : String
  error_code : Option String
  recovery : RecoveryDoc
deriving DecidableEq, Repr

/-- `ErrorRecovery.from_dict`: the only failure modelled is the
`ValueError` from `RecoveryStrategy(recovery_data['strategy'])` on an
unrecognized strategy string. -/
def ErrorRecovery.fromDict (d : ErrorHandlerDoc) : Except PyError ErrorRecovery :=
  match RecoveryStrategy.ofString d.recovery.strategy with
  | none => Except.error ⟨"ValueError", d.recovery.strategy ++ " is not a valid RecoveryStrategy"⟩
  | some s =>
    Except.ok
      { error_type := d.error_type
        error_code := d.error_code
        strategy := s
        max_retries := d.recovery.max_retries
        backoff_ms := d.recovery.backoff_ms
        wait_seconds := d.recovery.wait_seconds
        fallback_tool := d.recovery.fallback_tool
        message_to_user := d.recovery.message_to_user }

/-- `execution.endpoint` sub-dict; `type`, `module` and `function` are
all read with `[...]` at resolve time. -/
structure Endpoint where
  type : String
  module : String
  function : String
deriving DecidableEq, Repr

/-- Raw `execution` section, stored unparsed by `Tool.__init__` and
indexed at use time: `parameters` and `endpoint` are read with `[...]`;
the `'returns' in ...` / `'success_schema' in ...` membership tests are
collapsed into one `Option` field. -/
structure ExecutionDesc (S : Type) where
  endpoint : Endpoint
  parameters : S
  returns_success_schema : Option S
deriving DecidableEq, Repr

/-- One entry of `usage_guidance['when_to_use']`: `trigger` is read with
`[...]`, `examples` with `.get('examples', [])`. -/
structure TriggerSpec where
  trigger : String
  examples : Option (List String)
deriving DecidableEq, Repr

/-- Raw `usage_guidance` section; `when_to_use` is read with
`.get('when_to_use', [])` at match time. -/
structure UsageGuidance where
  when_to_use : Option (List TriggerSpec)
deriving DecidableEq, Repr

/-- A whole tool document, as passed to `Tool.__init__`: `raw` stands
for the dict itself (kept as `self.spec`), the remaining fields for the
presence or absence of the top-level keys. -/
structure ToolDoc (S V : Type) where
  raw : V
  manifest : Option ManifestDoc
  capabilities : Option V
  execution : Option (ExecutionDesc S)
  usage_guidance : Option UsageGuidance
  error_handling : Option (List ErrorHandlerDoc)
deriving DecidableEq, Repr

/-- The constructed `Tool` object (sans the mutable `_cached_function`
slot, which lives in `ExecState`). -/
structure Tool (S V : Type) where
  spec : V
  manifest : ToolManifest
  capabilities : V
  execution : ExecutionDesc S
  usage_guidance : UsageGuidance
  error_handlers : List ErrorRecovery
deriving DecidableEq, Repr

/-- The list comprehension `[ErrorRecovery.from_dict(e) for e in ...]`:
the first failing entry aborts construction with its error. -/
def parseHandlers : List ErrorHandlerDoc → Except PyError (List ErrorRecovery)
  | [] => Except.ok []
  | d :: ds =>
    match ErrorRecovery.fromDict d with
    | Except.error e => Except.error e
    | Except.ok r =>
      match parseHandlers ds with
      | Except.error e => Except.error e
      | Except.ok rs => Except.ok (r :: rs)

/-- `Tool.__init__`: index the four required top-level sections (a
missing one raises `KeyError`), parse the manifest and the optional
`error_handling` list.  An error means no `Tool` object is constructed. -/
def Tool.init {S V : Type} (doc : ToolDoc S V) : Except PyError (Tool S V) :=
  match doc.manifest with
  | none => Except.error ⟨"KeyError", "manifest"⟩
  | some m =>
    match doc.capabilities with
    | none => Except.error ⟨"KeyError", "capabilities"⟩
    | some c =>
      match doc.execution with
      | none => Except.error ⟨"KeyError", "execution"⟩
      | some ex =>
        match doc.usage_guidance with
        | none => Except.error ⟨"KeyError", "usage_guidance"⟩
        | some ug =>
          match parseHandlers (doc.error_handling.getD []) with
          | Except.error e => Except.error e
          | Except.ok handlers =>
            Except.ok
              { spec := doc.raw
                manifest := ToolManifest.fromDict m
                capabilities := c
                execution := ex
                usage_guidance := ug
                error_handlers := handlers }

/-! ### Execution engine -/

/-- The environment an execution runs in: the external schema validator
(`none` = valid, `some diag` = the validator's diagnostic), the outcome
of `importlib.import_module` + `getattr` for the tool's endpoint (the
error carries `str(e)` of the `ImportError`/`AttributeError`), and the
behaviour of the resolved callable on its n-th invocation (0-based). -/
structure EngineEnv (S V : Type) where
  validate : S → V → Option String
  importResolve : Except String Unit
  callable : Nat → Except PyError V

/-- The `jsonschema`-unavailable fallback `def validate(*args, **kwargs):
pass`: every document is reported valid. -/
def fallbackValidate {S V : Type} : S → V → Option String := fun _ _ => none

/-- Observable run state: whether `_cached_function` is populated, how
many times the resolver ran, how many times the underlying callable was
invoked, every `time.sleep` duration in seconds (in order), and the
warning-level log lines.  Info-level log lines carry no control flow and
are not modelled. -/
structure ExecState where
  cached : Bool
  resolves : Nat
  calls : Nat
  sleeps : List Rat
  warnings : List String
deriving DecidableEq, Repr

/-- The state of a fresh `Tool` instance before any execution. -/
def initState : ExecState :=
  { cached := false, resolves := 0, calls := 0, sleeps := [], warnings := [] }

/-- `Tool.validate_input`: run the validator on the declared parameter
schema; a diagnostic becomes a raised `ValidationError`. -/
def Tool.validateInput {S V : Type} (val : S → V → Option String) (tool : Tool S V)
    (params : V) : Except PyError Bool :=
  match val tool.execution.parameters params with
  | none => Except.ok true
  | some diag => Except.error ⟨"ValidationError", "Invalid input parameters: " ++ diag⟩

/-- `Tool.validate_output`: when a `success_schema` is declared, run the
validator on it; a diagnostic is logged at warning level and the method
returns `False` without raising. -/
def Tool.validateOutput {S V : Type} (val : S → V → Option String) (tool : Tool S V)
    (result : V) (st : ExecState) : ExecState × Bool :=
  match tool.execution.returns_success_schema with
  | some schema =>
    match val schema result with
    | none => (st, true)
    | some diag =>
      ({st with warnings := st.warnings ++ ["Output validation failed: " ++ diag]}, false)
  | none => (st, true)

/-- `Tool.validate_spec`: only validates when a schema is supplied (a
missing or empty schema is falsy); a diagnostic becomes a raised
`ValidationError`. -/
def Tool.validateSpec {S V : Type} (val : S → V → Option String) (tool : Tool S V)
    (schema : Option S) : Except PyError Bool :=
  match schema with
  | none => Except.ok true
  | some sch =>
    match val sch tool.spec with
    | none => Except.ok true
    | some diag => Except.error ⟨"ValidationError", "Invalid tool specification: " ++ diag⟩

/-- `Tool._load_function`: return the cached handle if present;
otherwise, for a `python_function` endpoint, attempt the import (wrapping
a failure in `ToolExecutionError`) and cache the result; for any other
endpoint type raise `NotImplementedError`. -/
def Tool.loadFunction {S V : Type} (env : EngineEnv S V) (tool : Tool S V)
    (st : ExecState) : ExecState × Except PyError Unit :=
  if st.cached then (st, Except.ok ())
  else
    let ep := tool.execution.endpoint
    if ep.type = "python_function" then
      let st1 := {st with resolves := st.resolves + 1}
      match env.importResolve with
      | Except.ok _ => ({st1 with cached := true}, Except.ok ())
      | Except.error e =>
        (st1, Except.error ⟨"ToolExecutionError",
          "Could not load function " ++ ep.module ++ "." ++ ep.function ++ ": " ++ e⟩)
    else
      (st, Except.error ⟨"NotImplementedError", "Protocol " ++ ep.type ++ " not yet supported"⟩)

/-- The body of `Tool.execute` with the `except` clause abstracted:
validate inputs (outside the `try`, so a `ValidationError` propagates),
resolve the callable (also outside the `try`), invoke it, validate the
output on success (non-fatal), and hand an invocation failure to
`onError` (which is `raise` when `handle_errors=False` and
`_handle_error` when `handle_errors=True`). -/
def Tool.executePipeline {S V : Type} (env : EngineEnv S V) (tool : Tool S V)
    (vin vout : Bool) (params : V) (st : ExecState)
    (onError : PyError → ExecState → ExecState × Except PyError V) :
    ExecState × Except PyError V :=
  match (if vin then Tool.validateInput env.validate tool params else Except.ok true) with
  | Except.error e => (st, Except.error e)
  | Except.ok _ =>
    match Tool.loadFunction env tool st with
    | (st1, Except.error e) => (st1, Except.error e)
    | (st1, Except.ok _) =>
      let n := st1.calls
      let st2 := {st1 with calls := n + 1}
      match env.callable n with
      | Except.ok result =>
        ((if vout then (Tool.validateOutput env.validate tool result st2).1 else st2),
          Except.ok result)
      | Except.error e => onError e st2

/-- The body of the `for attempt in range(max_retries)` loop of
`Tool._retry_with_backoff`, written with explicit fuel
(`fuel = maxRetries - attempt`, so the fuel-exhausted branch is
unreachable whenever `maxRetries ≥ 1`, which the Python `or` defaults
guarantee; `range(0)` would fall out of the loop returning `None`,
modelled by the sentinel error).  Before every attempt after the first
it sleeps `backoff[min(attempt-1, len(backoff)-1)]` milliseconds, then
re-enters the execute pipeline with `handle_errors=False`; the last
attempt's failure propagates. -/
def Tool.retryAux {S V : Type} (env : EngineEnv S V) (tool : Tool S V) (params : V)
    (maxRetries : Nat) (backoff : List Nat) :
    Nat → Nat → ExecState → ExecState × Except PyError V
  | 0, _, st => (st, Except.error ⟨"NoneType", "retry loop fell through"⟩)
  | fuel + 1, attempt, st =>
    let st1 :=
      if 0 < attempt then
        {st with sleeps := st.sleeps ++
          [((backoff.getD (min (attempt - 1) (backoff.length - 1)) 0 : Nat) : Rat) / 1000]}
      else st
    match Tool.executePipeline env tool true true params st1
        (fun e s => (s, Except.error e)) with
    | (st2, Except.ok v) => (st2, Except.ok v)
    | (st2, Except.error e) =>
      if attempt = maxRetries - 1 then (st2, Except.error e)
      else Tool.retryAux env tool params maxRetries backoff fuel (attempt + 1) st2

/-- `Tool._retry_with_backoff`: apply the Python `or` defaults
(`max_retries or 3`, `backoff_ms or [1000, 2000, 4000]`) and run the
retry loop from attempt 0. -/
def Tool.retryWithBackoff {S V : Type} (env : EngineEnv S V) (tool : Tool S V)
    (params : V) (handler : ErrorRecovery) (st : ExecState) :
    ExecState × Except PyError V :=
  let maxRetries := pyOrNat handler.max_retries 3
  let backoff := pyOrList handler.backoff_ms [1000, 2000, 4000]
  Tool.retryAux env tool params maxRetries backoff maxRetries 0 st

/-- The rule-matching test of `Tool._handle_error`:
`h.error_code == error_type or h.error_type in str(error)`. -/
def ruleMatches (e : PyError) (h : ErrorRecovery) : Bool :=
  decide (h.error_code = some e.typeName) || pyIn h.error_type e.msg

/-- Specification-level reading of `ruleMatches`. -/
def RuleMatchesP (e : PyError) (h : ErrorRecovery) : Prop :=
  h.error_code = some e.typeName ∨ SubstrOf h.error_type e.msg

/-- `Tool._handle_error`: scan the ordered rules for the first match; no
match re-raises the original error.  `retry_with_backoff` enters the
retry loop; `wait_and_retry` sleeps `wait_seconds or 1` seconds and
re-enters the execute pipeline once with `handle_errors=False`;
`prompt_user` logs `message_to_user or str(error)` at warning level and
re-raises; `fail` and every remaining strategy re-raise. -/
def Tool.handleError {S V : Type} (env : EngineEnv S V) (tool : Tool S V)
    (e : PyError) (params : V) (st : ExecState) : ExecState × Except PyError V :=
  match tool.error_handlers.find? (ruleMatches e) with
  | none => (st, Except.error e)
  | some handler =>
    match handler.strategy with
    | RecoveryStrategy.retry_with_backoff =>
      Tool.retryWithBackoff env tool params handler st
    | RecoveryStrategy.wait_and_retry =>
      let st1 := {st with sleeps := st.sleeps ++ [pyOrRat handler.wait_seconds 1]}
      Tool.executePipeline env tool true true params st1 (fun e2 s => (s, Except.error e2))
    | RecoveryStrategy.prompt_user =>
      ({st with warnings := st.warnings ++ [pyOrStr handler.message_to_user e.msg]},
        Except.error e)
    | RecoveryStrategy.fail => (st, Except.error e)
    | _ => (st, Except.error e)

/-- `Tool.execute`: the pipeline, with an invocation failure handed to
`_handle_error` when `handle_errors=True` and re-raised otherwise. -/
def Tool.execute {S V : Type} (env : EngineEnv S V) (tool : Tool S V)
    (vin vout herr : Bool) (params : V) (st : ExecState) :
    ExecState × Except PyError V :=
  Tool.executePipeline env tool vin vout params st
    (fun e s => if herr then Tool.handleError env tool e params s else (s, Except.error e))

/-! ### Trigger matching and the registry -/

/-- `Tool.matches_trigger`: for any `when_to_use` entry, match if any
whitespace-delimited word of the lowered trigger phrase occurs in the
lowered query, or any lowered example phrase occurs in the lowered
query. -/
def Tool.matchesTrigger {S V : Type} (tool : Tool S V) (user_query : String) : Bool :=
  (tool.usage_guidance.when_to_use.getD []).any (fun ts =>
    let trigger := ts.trigger.toLower
    let examples := (ts.examples.getD []).map String.toLower
    (pySplit trigger).any (fun keyword => pyIn keyword user_query.toLower) ||
      examples.any (fun ex => pyIn ex user_query.toLower))

/-- Python-dict insertion: replace in place when the key is present,
append otherwise. -/
def dictInsert {α : Type} (l : List (String × α)) (k : String) (v : α) :
    List (String × α) :=
  if l.any (fun p => p.1 == k) then
    l.map (fun p => if p.1 == k then (k, v) else p)
  else l ++ [(k, v)]

/-- `ToolRegistry`: the id-keyed tool dict and the category buckets,
both as insertion-ordered association lists. -/
structure ToolRegistry (S V : Type) where
  tools : List (String × Tool S V)
  categories : List (String × List String)

/-- `ToolRegistry.__init__`. -/
def ToolRegistry.empty {S V : Type} : ToolRegistry S V :=
  { tools := [], categories := [] }

/-- `ToolRegistry.register_tool`: insert by manifest id (last
registration wins), create the category bucket if absent, and append the
id to it unconditionally. -/
def ToolRegistry.registerTool {S V : Type} (reg : ToolRegistry S V) (tool : Tool S V) :
    ToolRegistry S V :=
  let tools2 := dictInsert reg.tools tool.manifest.id tool
  let category := tool.manifest.category
  let cats :=
    if reg.categories.any (fun p => p.1 == category) then reg.categories
    else reg.categories ++ [(category, [])]
  { tools := tools2
    categories := cats.map (fun p =>
      if p.1 == category then (p.1, p.2 ++ [tool.manifest.id]) else p) }

/-- Registering a list of tools in order, starting from an empty
registry. -/
def ToolRegistry.registerAll {S V : Type} (l : List (Tool S V)) : ToolRegistry S V :=
  l.foldl ToolRegistry.registerTool ToolRegistry.empty

/-- `ToolRegistry.find_tools`: keep every registered tool passing all
supplied filters.  Each Python guard `if f and not ok: continue` keeps a
tool when the filter is falsy (absent, empty string or empty list) or
the condition holds. -/
def ToolRegistry.findTools {S V : Type} (reg : ToolRegistry S V)
    (category : Option String) (tags : Option (List String)) (query : Option String) :
    List (Tool S V) :=
  (reg.tools.map Prod.snd).filter (fun tool =>
    (match category with
     | none => true
     | some c => decide (c = "") || decide (tool.manifest.category = c)) &&
    (match tags with
     | none => true
     | some ts => decide (ts = []) || ts.all (fun tag => tool.manifest.tags.contains tag)) &&
    (match query with
     | none => true
     | some q => decide (q = "") || Tool.matchesTrigger tool q))

/-! ### Concrete fixtures (schemas are `String`, JSON values are `Nat`) -/

/-- A concrete manifest. -/
def manifestC : ToolManifest :=
  { id := "t1", name := "tool-one", version := "1.0.0", display_name := none,
    description := "", category := "data", tags := ["a", "b"], provider := [] }

/-- A concrete `python_function` endpoint. -/
def endpointC : Endpoint :=
  { type := "python_function", module := "m", function := "f" }

/-- A concrete execution section. -/
def execC : ExecutionDesc String :=
  { endpoint := endpointC, parameters := "pschema", returns_success_schema := some "sschema" }

/-- A concrete usage-guidance section. -/
def ugC : UsageGuidance :=
  { when_to_use := some [{ trigger := "Search Products", examples := some ["find shirts"] }] }

/-- A retry-with-backoff rule with `max_retries=3`, `backoff_ms=[100,200]`. -/
def ruleBackoff : ErrorRecovery :=
  { error_type := "boom", error_code := some "RuntimeError",
    strategy := RecoveryStrategy.retry_with_backoff,
    max_retries := some 3, backoff_ms := some [100, 200], wait_seconds := none,
    fallback_tool := none, message_to_user := none }

/-- A tool whose only recovery rule is `ruleBackoff`. -/
def toolBackoff : Tool String Nat :=
  { spec := 0, manifest := manifestC, capabilities := 0, execution := execC,
    usage_guidance := ugC, error_handlers := [ruleBackoff] }

/-- The `RuntimeError` thrown by the concrete failing callables. -/
def errBoom : PyError := ⟨"RuntimeError", "boom"⟩

/-- Environment whose callable fails on its first two invocations and
returns 42 from the third on; validation always passes and the endpoint
resolves. -/
def envFail2 : EngineEnv String Nat :=
  { validate := fun _ _ => none, importResolve := Except.ok (),
    callable := fun n => if n < 2 then Except.error errBoom else Except.ok 42 }

/-- Environment whose callable fails on its first three invocations and
returns 42 from the fourth on. -/
def envFail3 : EngineEnv String Nat :=
  { validate := fun _ _ => none, importResolve := Except.ok (),
    callable := fun n => if n < 3 then Except.error errBoom else Except.ok 42 }

/-- Environment whose callable always fails. -/
def envAllFail : EngineEnv String Nat :=
  { validate := fun _ _ => none, importResolve := Except.ok (),
    callable := fun _ => Except.error errBoom }

/-! ### Basic lemmas -/

theorem leadsWith_iff (n : List Char) : ∀ l : List Char,
    leadsWith n l = true ↔ ∃ t, l = n ++ t := by
  induction n with
  | nil => intro l; simp [leadsWith]
  | cons c cs ih =>
    intro l
    cases l with
    | nil =>
      simp [leadsWith]
    | cons d ds =>
      simp only [leadsWith, Bool.and_eq_true, beq_iff_eq, ih]
      constructor
      · rintro ⟨rfl, t, rfl⟩
        exact ⟨t, rfl⟩
      · rintro ⟨t, h⟩
        injection h with h1 h2
        exact ⟨h1.symm, t, h2⟩

theorem occursIn_iff (n : List Char) : ∀ l : List Char,
    occursIn n l = true ↔ ∃ p t, l = p ++ n ++ t := by
  intro l
  induction l with
  | nil =>
    simp only [occursIn, leadsWith_iff]
    constructor
    · rintro ⟨t, h⟩
      exact ⟨[], t, by simpa using h⟩
    · rintro ⟨p, t, h⟩
      rw [eq_comm, List.append_eq_nil] at h
      obtain ⟨h1, h2⟩ := h
      rw [List.append_eq_nil] at h1
      exact ⟨[], by simp [h1.2, h2]⟩
  | cons c cs ih =>
    simp only [occursIn, Bool.or_eq_true, leadsWith_iff, ih]
    constructor
    · rintro (⟨t, h⟩ | ⟨p, t, h⟩)
      · exact ⟨[], t, by simpa using h⟩
      · exact ⟨c :: p, t, by simp [h]⟩
    · rintro ⟨p, t, h⟩
      cases p with
      | nil => exact Or.inl ⟨t, by simpa using h⟩
      | cons x p2 =>
        injection h with h1 h2
        exact Or.inr ⟨p2, t, by simp [h2]⟩

theorem pyIn_iff (needle hay : String) : pyIn needle hay = true ↔ SubstrOf needle hay :=
  occursIn_iff needle.toList hay.toList

theorem ruleMatches_iff (e : PyError) (h : ErrorRecovery) :
    ruleMatches e h = true ↔ RuleMatchesP e h := by
  simp [ruleMatches, RuleMatchesP, pyIn_iff]

theorem pyOrNat_pos (x : Option Nat) : 0 < pyOrNat x 3 := by
  cases x with
  | none => simp [pyOrNat]
  | some n =>
    simp only [pyOrNat]
    split <;> omega

theorem fromDict_error_of_bad_strategy (d : ErrorHandlerDoc)
    (h : RecoveryStrategy.ofString d.recovery.strategy = none) :
    ErrorRecovery.fromDict d =
      Except.error ⟨"ValueError", d.recovery.strategy ++ " is not a valid RecoveryStrategy"⟩ := by
  simp [ErrorRecovery.fromDict, h]

theorem parseHandlers_error_of_mem {l : List ErrorHandlerDoc} {d : ErrorHandlerDoc}
    {e0 : PyError} (hd : d ∈ l) (hf : ErrorRecovery.fromDict d = Except.error e0) :
    ∃ e, parseHandlers l = Except.error e := by
  induction l with
  | nil => cases hd
  | cons a as ih =>
    rcases List.mem_cons.mp hd with rfl | hmem
    · exact ⟨e0, by simp [parseHandlers, hf]⟩
    · match ha : ErrorRecovery.fromDict a with
      | Except.error e1 => exact ⟨e1, by simp [parseHandlers, ha]⟩
      | Except.ok r =>
        obtain ⟨e, he⟩ := ih hmem
        exact ⟨e, by simp [parseHandlers, ha, he]⟩

/-! ### Pipeline lemmas -/

/-- The state `Tool._load_function` leaves behind on a successful
resolution: unchanged when the handle was cached, otherwise one more
resolver call and a populated cache. -/
def resolvedState (st : ExecState) : ExecState :=
  if st.cached then st else {st with resolves := st.resolves + 1, cached := true}

theorem resolvedState_calls (st : ExecState) : (resolvedState st).calls = st.calls := by
  unfold resolvedState; split <;> rfl

theorem resolvedState_sleeps (st : ExecState) : (resolvedState st).sleeps = st.sleeps := by
  unfold resolvedState; split <;> rfl

theorem resolvedState_warnings (st : ExecState) :
    (resolvedState st).warnings = st.warnings := by
  unfold resolvedState; split <;> rfl

theorem loadFunction_cached {S V : Type} (env : EngineEnv S V) (tool : Tool S V)
    (st : ExecState) (hc : st.cached = true) :
    Tool.loadFunction env tool st = (st, Except.ok ()) := by
  simp [Tool.loadFunction, hc]

theorem loadFunction_ok {S V : Type} (env : EngineEnv S V) (tool : Tool S V)
    (st : ExecState) (htype : tool.execution.endpoint.type = "python_function")
    (hres : env.importResolve = Except.ok ()) :
    Tool.loadFunction env tool st = (resolvedState st, Except.ok ()) := by
  unfold Tool.loadFunction resolvedState
  cases hc : st.cached with
  | true => simp [hc]
  | false => simp [hc, htype, hres]

theorem loadFunction_not_supported {S V : Type} (env : EngineEnv S V) (tool : Tool S V)
    (st : ExecState) (hc : st.cached = false)
    (htype : tool.execution.endpoint.type ≠ "python_function") :
    Tool.loadFunction env tool st =
      (st, Except.error ⟨"NotImplementedError",
        "Protocol " ++ tool.execution.endpoint.type ++ " not yet supported"⟩) := by
  simp [Tool.loadFunction, hc, htype]

theorem pipeline_fail {S V : Type} (env : EngineEnv S V) (tool : Tool S V)
    (params : V) (st : ExecState) (e : PyError)
    (onError : PyError → ExecState → ExecState × Except PyError V)
    (hval : env.validate tool.execution.parameters params = none)
    (htype : tool.execution.endpoint.type = "python_function")
    (hres : env.importResolve = Except.ok ())
    (hcall : env.callable st.calls = Except.error e) :
    Tool.executePipeline env tool true true params st onError =
      onError e {resolvedState st with calls := st.calls + 1} := by
  unfold Tool.executePipeline
  rw [loadFunction_ok env tool st htype hres]
  simp [Tool.validateInput, hval, resolvedState_calls, hcall]

theorem pipeline_ok {S V : Type} (env : EngineEnv S V) (tool : Tool S V)
    (params : V) (st : ExecState) (v : V)
    (onError : PyError → ExecState → ExecState × Except PyError V)
    (hval : env.validate tool.execution.parameters params = none)
    (htype : tool.execution.endpoint.type = "python_function")
    (hres : env.importResolve = Except.ok ())
    (hcall : env.callable st.calls = Except.ok v) :
    Tool.executePipeline env tool true true params st onError =
      ((Tool.validateOutput env.validate tool v
        {resolvedState st with calls := st.calls + 1}).1, Except.ok v) := by
  unfold Tool.executePipeline
  rw [loadFunction_ok env tool st htype hres]
  simp [Tool.validateInput, hval, resolvedState_calls, hcall]

theorem validateOutput_invalid {S V : Type} (env : EngineEnv S V) (tool : Tool S V)
    (v : V) (st : ExecState) (schema : S) (diag : String)
    (hschema : tool.execution.returns_success_schema = some schema)
    (hdiag : env.validate schema v = some diag) :
    Tool.validateOutput env.validate tool v st =
      ({st with warnings := st.warnings ++ ["Output validation failed: " ++ diag]}, false) := by
  simp [Tool.validateOutput, hschema, hdiag]

/-! ### Retry loop characterization -/

/-- The sleep (in seconds) taken before retry attempt `i + 1`:
`backoff[min(i, len(backoff)-1)]` milliseconds, the last configured
value being reused beyond the end of the sequence. -/
def backoffSleep (backoff : List Nat) (i : Nat) : Rat :=
  ((backoff.getD (min i (backoff.length - 1)) 0 : Nat) : Rat) / 1000

/-- The sleeps the retry loop performs over `fuel` iterations starting
at attempt number `a` (no sleep before attempt 0). -/
def sched (B : List Nat) : Nat → Nat → List Rat
  | _, 0 => []
  | a, fuel + 1 =>
    (if a = 0 then [] else [backoffSleep B (a - 1)]) ++ sched B (a + 1) fuel

theorem sched_pos (B : List Nat) : ∀ fuel a, 0 < a →
    sched B a fuel = (List.range fuel).map (fun k => backoffSleep B (a - 1 + k)) := by
  intro fuel
  induction fuel with
  | zero => intro a _; rfl
  | succ f ih =>
    intro a ha
    show (if a = 0 then [] else [backoffSleep B (a - 1)]) ++ sched B (a + 1) f = _
    rw [if_neg (by omega), ih (a + 1) (by omega), List.range_succ_eq_map,
      List.map_cons, List.map_map]
    simp only [List.singleton_append, Nat.add_zero]
    congr 1
    apply List.map_congr_left
    intro k _
    simp only [Function.comp]
    congr 1
    omega

theorem sched_zero (B : List Nat) (m : Nat) :
    sched B 0 (m + 1) = (List.range m).map (fun k => backoffSleep B k) := by
  show (if (0 : Nat) = 0 then [] else _) ++ sched B 1 m = _
  cases m with
  | zero => rfl
  | succ m2 =>
    rw [if_pos rfl, List.nil_append, sched_pos B (m2 + 1) 1 (by omega)]
    simp

theorem retryAux_allFail {S V : Type} (env : EngineEnv S V) (tool : Tool S V)
    (params : V) (es : Nat → PyError) (M : Nat) (B : List Nat)
    (hval : env.validate tool.execution.parameters params = none)
    (htype : tool.execution.endpoint.type = "python_function")
    (hres : env.importResolve = Except.ok ())
    (hfail : ∀ n, env.callable n = Except.error (es n)) :
    ∀ fuel attempt st, attempt + fuel = M → 0 < fuel →
    ∃ stF, Tool.retryAux env tool params M B fuel attempt st =
        (stF, Except.error (es (st.calls + fuel - 1)))
      ∧ stF.calls = st.calls + fuel
      ∧ stF.sleeps = st.sleeps ++ sched B attempt fuel := by
  intro fuel
  induction fuel with
  | zero => intro attempt st _ hpos; omega
  | succ f ih =>
    intro attempt st hM _
    have hstep : Tool.retryAux env tool params M B (f + 1) attempt st =
        (let st1 :=
          if 0 < attempt then
            {st with sleeps := st.sleeps ++ [backoffSleep B (attempt - 1)]}
          else st
        match Tool.executePipeline env tool true true params st1
            (fun e s => (s, Except.error e)) with
        | (st2, Except.ok v) => (st2, Except.ok v)
        | (st2, Except.error e) =>
          if attempt = M - 1 then (st2, Except.error e)
          else Tool.retryAux env tool params M B f (attempt + 1) st2) := rfl
    set st1 :=
      (if 0 < attempt then
        {st with sleeps := st.sleeps ++ [backoffSleep B (attempt - 1)]}
      else st) with hst1
    have hst1calls : st1.calls = st.calls := by
      rw [hst1]; split <;> rfl
    have hst1sleeps : st1.sleeps =
        st.sleeps ++ (if attempt = 0 then [] else [backoffSleep B (attempt - 1)]) := by
      rw [hst1]
      rcases Nat.eq_zero_or_pos attempt with h0 | h0
      · simp [h0]
      · rw [if_pos h0, if_neg (by omega)]
    have hpipe := pipeline_fail env tool params st1 (es st1.calls)
      (fun e s => (s, Except.error e)) hval htype hres (hfail st1.calls)
    rw [hstep]
    simp only [hpipe]
    by_cases hlast : attempt = M - 1
    · have hf0 : f = 0 := by omega
      subst hf0
      rw [if_pos hlast]
      have hidx : st1.calls = st.calls + (0 + 1) - 1 := by rw [hst1calls]; omega
      rw [hidx]
      refine ⟨_, rfl, ?_, ?_⟩
      · simp [hst1calls]
      · rw [resolvedState_sleeps, hst1sleeps]
        show st.sleeps ++ (if attempt = 0 then [] else [backoffSleep B (attempt - 1)]) =
          st.sleeps ++ ((if attempt = 0 then [] else [backoffSleep B (attempt - 1)]) ++
            sched B (attempt + 1) 0)
        simp [sched]
    · rw [if_neg hlast]
      have hfpos : 0 < f := by omega
      obtain ⟨stF, hrec, hcalls, hsleeps⟩ :=
        ih (attempt + 1) {resolvedState st1 with calls := st1.calls + 1} (by omega) hfpos
      refine ⟨stF, ?_, ?_, ?_⟩
      · rw [hrec]
        have : st1.calls + 1 + f - 1 = st.calls + (f + 1) - 1 := by
          rw [hst1calls]; omega
        simp [this]
      · rw [hcalls]; simp [hst1calls]; omega
      · rw [hsleeps]
        simp only [resolvedState_sleeps, hst1sleeps]
        show _ = st.sleeps ++ ((if attempt = 0 then [] else [backoffSleep B (attempt - 1)]) ++
          sched B (attempt + 1) f)
        rw [List.append_assoc]

/-! ### Claim C1 -/

/-- C1 counterexample: for a tool whose matching rule has
`max_retries=3`, `backoff_ms=[100,200]`, and a callable that fails on
its first two invocations and succeeds on the third, `execute` returns
the success result after exactly ONE delay of 100ms — not after the two
delays (100ms then 200ms) the claim states: the recovery loop re-invokes
immediately on its first attempt, without sleeping. -/
theorem aitool_c1_counterexample :
    (Tool.execute envFail2 toolBackoff true true true 7 initState).2 = Except.ok 42
    ∧ (Tool.execute envFail2 toolBackoff true true true 7 initState).1.sleeps =
        [(100 : Rat)/1000]
    ∧ (Tool.execute envFail2 toolBackoff true true true 7 initState).1.sleeps ≠
        [(100 : Rat)/1000, (200 : Rat)/1000] := by
  refine ⟨rfl, rfl, ?_⟩
  have h : (Tool.execute envFail2 toolBackoff true true true 7 initState).1.sleeps =
      [(100 : Rat)/1000] := rfl
  rw [h]
  intro hcontra
  simpa using congrArg List.length hcontra

/-- C1 (amended): with `max_retries=3`, `backoff_ms=[100,200]` and a
callable that fails on its first two invocations and succeeds on the
third, `execute` returns the success result after exactly one delay of
100ms (the loop re-invokes immediately on its first attempt); two delays
of 100ms then 200ms occur when the callable fails on its first three
invocations and succeeds on the fourth.  In general the retry loop runs
up to `max_retries` attempts (default 3 when unset), sleeping
`backoff_ms[min(attemptIndex-1, len(backoff_ms)-1)]` ms before every
attempt after the first (default sequence 1000,2000,4000; last value
reused beyond the sequence), and if the final attempt fails the last
failure propagates. -/
theorem aitool_c1_retry_with_backoff :
    (Tool.execute envFail2 toolBackoff true true true 7 initState =
      ({ cached := true, resolves := 1, calls := 3, sleeps := [(100 : Rat)/1000],
         warnings := [] }, Except.ok 42))
    ∧ (Tool.execute envFail3 toolBackoff true true true 7 initState =
      ({ cached := true, resolves := 1, calls := 4,
         sleeps := [(100 : Rat)/1000, (200 : Rat)/1000],
         warnings := [] }, Except.ok 42))
    ∧ (∀ {S V : Type} (env : EngineEnv S V) (tool : Tool S V) (params : V)
        (handler : ErrorRecovery) (st : ExecState) (es : Nat → PyError),
        env.validate tool.execution.parameters params = none →
        tool.execution.endpoint.type = "python_function" →
        env.importResolve = Except.ok () →
        (∀ n, env.callable n = Except.error (es n)) →
        ∃ stF, Tool.retryWithBackoff env tool params handler st =
            (stF, Except.error (es (st.calls + pyOrNat handler.max_retries 3 - 1)))
          ∧ stF.calls = st.calls + pyOrNat handler.max_retries 3
          ∧ stF.sleeps = st.sleeps ++
              (List.range (pyOrNat handler.max_retries 3 - 1)).map
                (fun i => backoffSleep (pyOrList handler.backoff_ms [1000, 2000, 4000]) i)) := by
  refine ⟨rfl, rfl, ?_⟩
  intro S V env tool params handler st es hval htype hres hfail
  have hM : 0 < pyOrNat handler.max_retries 3 := pyOrNat_pos _
  obtain ⟨stF, h1, h2, h3⟩ := retryAux_allFail env tool params es
    (pyOrNat handler.max_retries 3) (pyOrList handler.backoff_ms [1000, 2000, 4000])
    hval htype hres hfail (pyOrNat handler.max_retries 3) 0 st (by omega) hM
  have hm : pyOrNat handler.max_retries 3 = (pyOrNat handler.max_retries 3 - 1) + 1 := by
    omega
  have h4 : sched (pyOrList handler.backoff_ms [1000, 2000, 4000]) 0
      (pyOrNat handler.max_retries 3) =
      (List.range (pyOrNat handler.max_retries 3 - 1)).map
        (fun i => backoffSleep (pyOrList handler.backoff_ms [1000, 2000, 4000]) i) := by
    conv_lhs => rw [hm]
    exact sched_zero _ _
  exact ⟨stF, h1, h2, by rw [h3, h4]⟩

/-- C1 witness: the general retry-loop characterization of
`aitool_c1_retry_with_backoff`, applied to a concrete always-failing
environment with `max_retries=3` and `backoff_ms=[100,200]`. -/
theorem aitool_c1_witness :
    ∃ stF, Tool.retryWithBackoff envAllFail toolBackoff 7 ruleBackoff initState =
        (stF, Except.error errBoom)
      ∧ stF.calls = initState.calls + pyOrNat ruleBackoff.max_retries 3
      ∧ stF.sleeps = initState.sleeps ++
          (List.range (pyOrNat ruleBackoff.max_retries 3 - 1)).map
            (fun i => backoffSleep (pyOrList ruleBackoff.backoff_ms [1000, 2000, 4000]) i) :=
  aitool_c1_retry_with_backoff.2.2 envAllFail toolBackoff 7 ruleBackoff initState
    (fun _ => errBoom) rfl rfl rfl (fun _ => rfl)

instance (n h : String) : Decidable (SubstrOf n h) :=
  decidable_of_iff (pyIn n h = true) (pyIn_iff n h)

instance (e : PyError) (h : ErrorRecovery) : Decidable (RuleMatchesP e h) := by
  unfold RuleMatchesP
  infer_instance

/-! ### Further fixtures -/

/-- Environment whose validator rejects every input. -/
def envBadParams : EngineEnv String Nat :=
  { validate := fun _ _ => some "missing field", importResolve := Except.ok (),
    callable := fun _ => Except.ok 42 }

/-- An error matching no rule of `toolBackoff`. -/
def errOther : PyError := ⟨"KeyError", "missing"⟩

/-- Environment whose callable always fails with `errOther`. -/
def envFailOther : EngineEnv String Nat :=
  { validate := fun _ _ => none, importResolve := Except.ok (),
    callable := fun _ => Except.error errOther }

/-- Environment whose parameters validate but whose results are rejected
by the output schema. -/
def envBadOut : EngineEnv String Nat :=
  { validate := fun s _ => if s = "sschema" then some "bad output" else none,
    importResolve := Except.ok (),
    callable := fun _ => Except.ok 42 }

/-- Environment whose callable fails on its first invocation only. -/
def envFailOnce : EngineEnv String Nat :=
  { validate := fun _ _ => none, importResolve := Except.ok (),
    callable := fun n => if n < 1 then Except.error errBoom else Except.ok 42 }

/-- A wait-and-retry rule with `wait_seconds=2`. -/
def ruleWait : ErrorRecovery :=
  { error_type := "boom", error_code := some "RuntimeError",
    strategy := RecoveryStrategy.wait_and_retry,
    max_retries := none, backoff_ms := none, wait_seconds := some 2,
    fallback_tool := none, message_to_user := none }

/-- A tool whose only recovery rule is `ruleWait`. -/
def toolWait : Tool String Nat :=
  { spec := 0, manifest := manifestC, capabilities := 0, execution := execC,
    usage_guidance := ugC, error_handlers := [ruleWait] }

/-! ### Claim C2 -/

/-- C2: whenever the validator rejects `params`, `execute` with
`validate_input=true` raises `ValidationError` carrying the diagnostic,
leaves the state untouched (so the resolver and the callable observably
never run), and does so for every value of `handle_errors` — the error
is never subject to recovery-rule matching. -/
theorem aitool_c2_input_validation :
    ∀ {S V : Type} (env : EngineEnv S V) (tool : Tool S V) (params : V)
      (st : ExecState) (vout herr : Bool) (diag : String),
      env.validate tool.execution.parameters params = some diag →
      Tool.execute env tool true vout herr params st =
        (st, Except.error ⟨"ValidationError", "Invalid input parameters: " ++ diag⟩) := by
  intro S V env tool params st vout herr diag hval
  simp [Tool.execute, Tool.executePipeline, Tool.validateInput, hval]

/-- C2 witness: a concrete rejected input propagates the
`ValidationError` unchanged with the state untouched. -/
theorem aitool_c2_witness :
    Tool.execute envBadParams toolBackoff true true true 7 initState =
      (initState,
        Except.error ⟨"ValidationError", "Invalid input parameters: missing field"⟩) :=
  aitool_c2_input_validation envBadParams toolBackoff 7 initState true true
    "missing field" rfl

/-! ### Claim C3 -/

/-- C3: recovery dispatch selects the first rule, in declaration order,
whose `error_code` equals the failure's exception type name or whose
`error_type` occurs as a substring of the failure's message; and when no
rule matches, `execute` re-raises the exact original failure. -/
theorem aitool_c3_dispatch :
    (∀ {S V : Type} (tool : Tool S V) (e : PyError) (h : ErrorRecovery),
      tool.error_handlers.find? (ruleMatches e) = some h ↔
        RuleMatchesP e h ∧ ∃ pre suf, tool.error_handlers = pre ++ h :: suf ∧
          ∀ g ∈ pre, ¬ RuleMatchesP e g)
    ∧ (∀ {S V : Type} (env : EngineEnv S V) (tool : Tool S V) (params : V)
        (st : ExecState) (e : PyError),
        env.validate tool.execution.parameters params = none →
        tool.execution.endpoint.type = "python_function" →
        env.importResolve = Except.ok () →
        env.callable st.calls = Except.error e →
        (∀ g ∈ tool.error_handlers, ¬ RuleMatchesP e g) →
        Tool.execute env tool true true true params st =
          ({resolvedState st with calls := st.calls + 1}, Except.error e)) := by
  constructor
  · intro S V tool e h
    rw [List.find?_eq_some]
    constructor
    · rintro ⟨hp, pre, suf, heq, hprev⟩
      refine ⟨(ruleMatches_iff e h).mp hp, pre, suf, heq, ?_⟩
      intro g hg hcontra
      have hb := hprev g hg
      rw [(ruleMatches_iff e g).mpr hcontra] at hb
      simp at hb
    · rintro ⟨hp, pre, suf, heq, hprev⟩
      refine ⟨(ruleMatches_iff e h).mpr hp, pre, suf, heq, ?_⟩
      intro g hg
      cases hb : ruleMatches e g with
      | false => simp
      | true => exact absurd ((ruleMatches_iff e g).mp hb) (hprev g hg)
  · intro S V env tool params st e hval htype hres hcall hnone
    have hfind : tool.error_handlers.find? (ruleMatches e) = none := by
      rw [List.find?_eq_none]
      intro g hg hb
      exact hnone g hg ((ruleMatches_iff e g).mp hb)
    unfold Tool.execute
    rw [pipeline_fail env tool params st e _ hval htype hres hcall]
    simp [Tool.handleError, hfind]

/-- C3 witness: the dispatch characterization at the concrete
single-rule tool, and a concrete unmatched `KeyError` re-raised
unchanged by `execute`. -/
theorem aitool_c3_witness :
    (toolBackoff.error_handlers.find? (ruleMatches errBoom) = some ruleBackoff ↔
      RuleMatchesP errBoom ruleBackoff ∧ ∃ pre suf,
        toolBackoff.error_handlers = pre ++ ruleBackoff :: suf ∧
        ∀ g ∈ pre, ¬ RuleMatchesP errBoom g)
    ∧ Tool.execute envFailOther toolBackoff true true true 7 initState =
        ({resolvedState initState with calls := initState.calls + 1},
          Except.error errOther) :=
  ⟨aitool_c3_dispatch.1 toolBackoff errBoom ruleBackoff,
   aitool_c3_dispatch.2 envFailOther toolBackoff 7 initState errOther rfl rfl rfl rfl
     (by decide)⟩

/-! ### Claim C4 -/

/-- C4: on a successful invocation with `validate_output` enabled and a
non-conforming result, `execute` does not raise — it records the
diagnostic as a warning-level log line and still returns the result
exactly as produced, for every value of `handle_errors`. -/
theorem aitool_c4_output_validation :
    ∀ {S V : Type} (env : EngineEnv S V) (tool : Tool S V) (params : V)
      (st : ExecState) (v : V) (schema : S) (diag : String) (herr : Bool),
      env.validate tool.execution.parameters params = none →
      tool.execution.endpoint.type = "python_function" →
      env.importResolve = Except.ok () →
      env.callable st.calls = Except.ok v →
      tool.execution.returns_success_schema = some schema →
      env.validate schema v = some diag →
      Tool.execute env tool true true herr params st =
        ({resolvedState st with
          calls := st.calls + 1,
          warnings := st.warnings ++ ["Output validation failed: " ++ diag]},
          Except.ok v) := by
  intro S V env tool params st v schema diag herr hval htype hres hcall hschema hdiag
  unfold Tool.execute
  rw [pipeline_ok env tool params st v _ hval htype hres hcall,
    validateOutput_invalid env tool v _ schema diag hschema hdiag]
  simp [resolvedState_warnings]

/-- C4 witness: a concrete run whose output is rejected still returns
the produced result, with the diagnostic logged. -/
theorem aitool_c4_witness :
    Tool.execute envBadOut toolBackoff true true true 7 initState =
      ({resolvedState initState with
        calls := initState.calls + 1,
        warnings := initState.warnings ++ ["Output validation failed: bad output"]},
        Except.ok 42) :=
  aitool_c4_output_validation envBadOut toolBackoff 7 initState 42 "sschema"
    "bad output" true rfl rfl rfl rfl rfl rfl

/-! ### Claim C5 -/

/-- C5: when the matched rule's strategy is wait-and-retry, `execute`
sleeps `wait_seconds or 1` seconds and then performs exactly one retry
of the full execute pipeline with `handle_errors=false`; the retry's
outcome, success or failure, is returned or propagated as-is with no
further recovery. -/
theorem aitool_c5_wait_and_retry :
    ∀ {S V : Type} (env : EngineEnv S V) (tool : Tool S V) (params : V)
      (st : ExecState) (e : PyError) (h : ErrorRecovery),
      env.validate tool.execution.parameters params = none →
      tool.execution.endpoint.type = "python_function" →
      env.importResolve = Except.ok () →
      env.callable st.calls = Except.error e →
      tool.error_handlers.find? (ruleMatches e) = some h →
      h.strategy = RecoveryStrategy.wait_and_retry →
      Tool.execute env tool true true true params st =
        Tool.executePipeline env tool true true params
          {resolvedState st with
            calls := st.calls + 1,
            sleeps := st.sleeps ++ [pyOrRat h.wait_seconds 1]}
          (fun e2 s => (s, Except.error e2)) := by
  intro S V env tool params st e h hval htype hres hcall hfind hstrat
  unfold Tool.execute
  rw [pipeline_fail env tool params st e _ hval htype hres hcall]
  simp only [if_pos rfl, Tool.handleError, hfind, hstrat]
  simp [resolvedState_sleeps]

/-- C5 witness: a concrete wait-and-retry recovery reduces to the single
no-recovery pipeline re-entry after the configured sleep. -/
theorem aitool_c5_witness :
    Tool.execute envFailOnce toolWait true true true 7 initState =
      Tool.executePipeline envFailOnce toolWait true true 7
        {resolvedState initState with
          calls := initState.calls + 1,
          sleeps := initState.sleeps ++ [pyOrRat ruleWait.wait_seconds 1]}
        (fun e2 s => (s, Except.error e2)) :=
  aitool_c5_wait_and_retry envFailOnce toolWait 7 initState errBoom ruleWait
    rfl rfl rfl rfl rfl rfl

/-! ### Claim C6 -/

/-- C6: a tool document missing any of the required top-level sections
`manifest`, `capabilities`, `execution`, `usage_guidance` fails
construction with a parse error (Python raises `KeyError`; the spec
names this failure class `SpecError`), and a document whose
`error_handling` contains an unrecognized recovery strategy value fails
construction with a parse error (Python raises `ValueError`); in both
cases no `Tool` object is constructed. -/
theorem aitool_c6_parse_failures :
    (∀ (S V : Type) (doc : ToolDoc S V),
      (doc.manifest = none ∨ doc.capabilities = none ∨ doc.execution = none ∨
        doc.usage_guidance = none) →
      ∃ e, Tool.init doc = Except.error e)
    ∧ (∀ (S V : Type) (doc : ToolDoc S V) (hs : List ErrorHandlerDoc)
        (d : ErrorHandlerDoc),
        doc.error_handling = some hs → d ∈ hs →
        RecoveryStrategy.ofString d.recovery.strategy = none →
        ∃ e, Tool.init doc = Except.error e) := by
  constructor
  · intro S V doc hmiss
    rcases hm : doc.manifest with _ | m
    · exact ⟨⟨"KeyError", "manifest"⟩, by simp [Tool.init, hm]⟩
    · rcases hc : doc.capabilities with _ | c
      · exact ⟨⟨"KeyError", "capabilities"⟩, by simp [Tool.init, hm, hc]⟩
      · rcases hx : doc.execution with _ | ex
        · exact ⟨⟨"KeyError", "execution"⟩, by simp [Tool.init, hm, hc, hx]⟩
        · rcases hu : doc.usage_guidance with _ | ug
          · exact ⟨⟨"KeyError", "usage_guidance"⟩, by simp [Tool.init, hm, hc, hx, hu]⟩
          · rcases hmiss with h | h | h | h <;> simp_all
  · intro S V doc hs d hdoc hmem hbad
    have hfd : ErrorRecovery.fromDict d = Except.error
        ⟨"ValueError", d.recovery.strategy ++ " is not a valid RecoveryStrategy"⟩ :=
      fromDict_error_of_bad_strategy d hbad
    rcases hm : doc.manifest with _ | m
    · exact ⟨⟨"KeyError", "manifest"⟩, by simp [Tool.init, hm]⟩
    · rcases hc : doc.capabilities with _ | c
      · exact ⟨⟨"KeyError", "capabilities"⟩, by simp [Tool.init, hm, hc]⟩
      · rcases hx : doc.execution with _ | ex
        · exact ⟨⟨"KeyError", "execution"⟩, by simp [Tool.init, hm, hc, hx]⟩
        · rcases hu : doc.usage_guidance with _ | ug
          · exact ⟨⟨"KeyError", "usage_guidance"⟩, by simp [Tool.init, hm, hc, hx, hu]⟩
          · obtain ⟨e, he⟩ := parseHandlers_error_of_mem hmem hfd
            exact ⟨e, by simp [Tool.init, hm, hc, hx, hu, hdoc, he]⟩

/-- A concrete manifest section. -/
def manifestDocC : ManifestDoc :=
  { id := "t1", name := "tool-one", version := "1.0.0", display_name := none,
    description := none, category := "data", tags := some ["a", "b"],
    provider := none }

/-- A document missing its `manifest` section. -/
def docMissingManifest : ToolDoc String Nat :=
  { raw := 0, manifest := none, capabilities := some 0, execution := some execC,
    usage_guidance := some ugC, error_handling := none }

/-- An `error_handling` entry with an unrecognized strategy string. -/
def badHandlerDoc : ErrorHandlerDoc :=
  { error_type := "boom", error_code := none,
    recovery := { strategy := "explode", max_retries := none, backoff_ms := none,
                  wait_seconds := none, fallback_tool := none, message_to_user := none } }

/-- A document whose `error_handling` holds an unrecognized strategy. -/
def docBadStrategy : ToolDoc String Nat :=
  { raw := 0, manifest := some manifestDocC, capabilities := some 0,
    execution := some execC, usage_guidance := some ugC,
    error_handling := some [badHandlerDoc] }

/-- C6 witness: a concrete document missing `manifest` and a concrete
document with strategy `"explode"` both fail construction. -/
theorem aitool_c6_witness :
    (∃ e, Tool.init docMissingManifest = Except.error e)
    ∧ (∃ e, Tool.init docBadStrategy = Except.error e) :=
  ⟨aitool_c6_parse_failures.1 String Nat docMissingManifest (Or.inl rfl),
   aitool_c6_parse_failures.2 String Nat docBadStrategy [badHandlerDoc] badHandlerDoc
     rfl (List.mem_singleton.mpr rfl) rfl⟩

/-! ### Claim C7 -/

/-- C7: with the fallback validator installed when `jsonschema` is
unavailable, validation degrades to always-valid: for every input,
output and spec schema, `validate_input`, `validate_output` and
`validate_spec` succeed and raise nothing. -/
theorem aitool_c7_degraded_validator :
    ∀ (S V : Type) (tool : Tool S V) (params result : V) (schema : Option S)
      (st : ExecState),
      Tool.validateInput fallbackValidate tool params = Except.ok true
      ∧ Tool.validateOutput fallbackValidate tool result st = (st, true)
      ∧ Tool.validateSpec fallbackValidate tool schema = Except.ok true := by
  intro S V tool params result schema st
  refine ⟨rfl, ?_, ?_⟩
  · unfold Tool.validateOutput fallbackValidate
    cases tool.execution.returns_success_schema <;> rfl
  · unfold Tool.validateSpec fallbackValidate
    cases schema <;> rfl

/-! ### Cache preservation lemmas -/

theorem validateOutput_preserve {S V : Type} (val : S → V → Option String)
    (tool : Tool S V) (r : V) (st : ExecState) :
    ((Tool.validateOutput val tool r st).1).cached = st.cached ∧
    ((Tool.validateOutput val tool r st).1).resolves = st.resolves := by
  rcases h : tool.execution.returns_success_schema with _ | sch
  · simp [Tool.validateOutput, h]
  · rcases h2 : val sch r with _ | d
    · simp [Tool.validateOutput, h, h2]
    · simp [Tool.validateOutput, h, h2]

theorem pipeline_preserve {S V : Type} (env : EngineEnv S V) (tool : Tool S V)
    (vin vout : Bool) (params : V) (st : ExecState)
    (onError : PyError → ExecState → ExecState × Except PyError V)
    (honErr : ∀ e s, s.cached = true →
      ((onError e s).1).cached = true ∧ ((onError e s).1).resolves = s.resolves)
    (hc : st.cached = true) :
    ((Tool.executePipeline env tool vin vout params st onError).1).cached = true ∧
    ((Tool.executePipeline env tool vin vout params st onError).1).resolves =
      st.resolves := by
  unfold Tool.executePipeline
  rcases hv : (if vin then Tool.validateInput env.validate tool params
      else Except.ok true) with e | b
  · simp [hv, hc]
  · rcases hcall : env.callable st.calls with e | v
    · obtain ⟨h1, h2⟩ := honErr e {st with calls := st.calls + 1} (by simp [hc])
      simp only [hv, loadFunction_cached env tool st hc, hcall]
      exact ⟨h1, by simpa using h2⟩
    · cases vout with
      | false => simp [hv, loadFunction_cached env tool st hc, hcall, hc]
      | true =>
        obtain ⟨h1, h2⟩ :=
          validateOutput_preserve env.validate tool v {st with calls := st.calls + 1}
        simp only [hv, loadFunction_cached env tool st hc, hcall]
        constructor
        · simpa [hc] using h1
        · simpa using h2

theorem retryAux_preserve {S V : Type} (env : EngineEnv S V) (tool : Tool S V)
    (params : V) (M : Nat) (B : List Nat) :
    ∀ fuel attempt st, st.cached = true →
    ((Tool.retryAux env tool params M B fuel attempt st).1).cached = true ∧
    ((Tool.retryAux env tool params M B fuel attempt st).1).resolves = st.resolves := by
  intro fuel
  induction fuel with
  | zero => intro attempt st hc; exact ⟨hc, rfl⟩
  | succ f ih =>
    intro attempt st hc
    have hstep : Tool.retryAux env tool params M B (f + 1) attempt st =
        (let st1 :=
          if 0 < attempt then
            {st with sleeps := st.sleeps ++ [backoffSleep B (attempt - 1)]}
          else st
        match Tool.executePipeline env tool true true params st1
            (fun e s => (s, Except.error e)) with
        | (st2, Except.ok v) => (st2, Except.ok v)
        | (st2, Except.error e) =>
          if attempt = M - 1 then (st2, Except.error e)
          else Tool.retryAux env tool params M B f (attempt + 1) st2) := rfl
    rw [hstep]
    set st1 :=
      (if 0 < attempt then
        {st with sleeps := st.sleeps ++ [backoffSleep B (attempt - 1)]}
      else st) with hst1
    have hc1 : st1.cached = true := by
      rw [hst1]; split <;> simp [hc]
    have hr1 : st1.resolves = st.resolves := by
      rw [hst1]; split <;> rfl
    have hpres := pipeline_preserve env tool true true params st1
      (fun e s => (s, Except.error e)) (fun e s hs => ⟨hs, rfl⟩) hc1
    rcases hp : Tool.executePipeline env tool true true params st1
        (fun e s => (s, Except.error e)) with ⟨st2, r⟩
    rw [hp] at hpres
    simp only at hpres
    rcases r with e | v
    · simp only [hp]
      by_cases hl : attempt = M - 1
      · simp only [if_pos hl]
        exact ⟨hpres.1, hpres.2.trans hr1⟩
      · simp only [if_neg hl]
        obtain ⟨h1, h2⟩ := ih (attempt + 1) st2 hpres.1
        exact ⟨h1, by rw [h2, hpres.2, hr1]⟩
    · simp only [hp]
      exact ⟨hpres.1, hpres.2.trans hr1⟩

theorem handleError_preserve {S V : Type} (env : EngineEnv S V) (tool : Tool S V)
    (e : PyError) (params : V) (st : ExecState) (hc : st.cached = true) :
    ((Tool.handleError env tool e params st).1).cached = true ∧
    ((Tool.handleError env tool e params st).1).resolves = st.resolves := by
  unfold Tool.handleError
  rcases hf : tool.error_handlers.find? (ruleMatches e) with _ | handler
  · simp [hf, hc]
  · rcases hs : handler.strategy
    case retry_with_backoff =>
      simp only [hf, hs]
      exact retryAux_preserve env tool params _ _ _ 0 st hc
    case wait_and_retry =>
      simp only [hf, hs]
      refine pipeline_preserve env tool true true params _ _ (fun e2 s hs2 => ⟨hs2, rfl⟩) ?_
      simp [hc]
    case retry => simp [hf, hs, hc]
    case alternate_tool => simp [hf, hs, hc]
    case fail => simp [hf, hs, hc]
    case prompt_user => simp [hf, hs, hc]

theorem execute_preserve {S V : Type} (env : EngineEnv S V) (tool : Tool S V)
    (vin vout herr : Bool) (params : V) (st : ExecState) (hc : st.cached = true) :
    ((Tool.execute env tool vin vout herr params st).1).cached = true ∧
    ((Tool.execute env tool vin vout herr params st).1).resolves = st.resolves := by
  unfold Tool.execute
  refine pipeline_preserve env tool vin vout params st _ ?_ hc
  intro e s hcs
  cases herr with
  | false => exact ⟨hcs, rfl⟩
  | true =>
    simpa using handleError_preserve env tool e params s hcs

/-! ### Claim C8 -/

/-- C8: resolution is lazy and cached per Tool instance — with the cache
populated, `_load_function` returns without touching the resolver, and a
first execution resolves and writes the cache once; any later execution
(whatever its flags) performs no further resolution and leaves the cache
populated.  A non-`python_function` endpoint fails at resolve time with
`NotImplementedError`, for every value of `handle_errors` (the failure
is raised outside the `try`, so it is never subject to recovery-rule
matching), while parsing a document with such an endpoint succeeds. -/
theorem aitool_c8_lazy_resolution :
    (∀ {S V : Type} (env : EngineEnv S V) (tool : Tool S V) (st : ExecState),
      st.cached = true → Tool.loadFunction env tool st = (st, Except.ok ()))
    ∧ (∀ {S V : Type} (env : EngineEnv S V) (tool : Tool S V) (st : ExecState),
        st.cached = false → tool.execution.endpoint.type = "python_function" →
        env.importResolve = Except.ok () →
        Tool.loadFunction env tool st =
          ({st with resolves := st.resolves + 1, cached := true}, Except.ok ()))
    ∧ (∀ {S V : Type} (env : EngineEnv S V) (tool : Tool S V) (vin vout herr : Bool)
        (params : V) (st : ExecState), st.cached = true →
        ((Tool.execute env tool vin vout herr params st).1).cached = true ∧
        ((Tool.execute env tool vin vout herr params st).1).resolves = st.resolves)
    ∧ (∀ {S V : Type} (env : EngineEnv S V) (tool : Tool S V) (vout herr : Bool)
        (params : V) (st : ExecState),
        st.cached = false → tool.execution.endpoint.type ≠ "python_function" →
        env.validate tool.execution.parameters params = none →
        Tool.execute env tool true vout herr params st =
          (st, Except.error ⟨"NotImplementedError",
            "Protocol " ++ tool.execution.endpoint.type ++ " not yet supported"⟩))
    ∧ (∀ (S V : Type) (raw : V) (m : ManifestDoc) (c : V) (ex : ExecutionDesc S)
        (ug : UsageGuidance),
        Tool.init { raw := raw, manifest := some m, capabilities := some c,
                    execution := some ex, usage_guidance := some ug,
                    error_handling := none } =
          Except.ok { spec := raw, manifest := ToolManifest.fromDict m,
                      capabilities := c, execution := ex, usage_guidance := ug,
                      error_handlers := [] }) := by
  refine ⟨?_, ?_, ?_, ?_, ?_⟩
  · intro S V env tool st hc
    exact loadFunction_cached env tool st hc
  · intro S V env tool st hc htype hres
    rw [loadFunction_ok env tool st htype hres]
    simp [resolvedState, hc]
  · intro S V env tool vin vout herr params st hc
    exact execute_preserve env tool vin vout herr params st hc
  · intro S V env tool vout herr params st hc htype hval
    unfold Tool.execute Tool.executePipeline
    simp [Tool.validateInput, hval, loadFunction_not_supported env tool st hc htype]
  · intro S V raw m c ex ug
    rfl

/-- A tool whose endpoint protocol is `grpc`, not `python_function`. -/
def toolGrpc : Tool String Nat :=
  { spec := 0, manifest := manifestC, capabilities := 0,
    execution := { endpoint := { type := "grpc", module := "m", function := "f" },
                   parameters := "pschema", returns_success_schema := none },
    usage_guidance := ugC, error_handlers := [ruleBackoff] }

/-- C8 witness: the caching, re-use, protocol-rejection and
parse-acceptance facts at concrete states and tools. -/
theorem aitool_c8_witness :
    (Tool.loadFunction envFail2 toolBackoff {initState with cached := true} =
      ({initState with cached := true}, Except.ok ()))
    ∧ (Tool.loadFunction envFail2 toolBackoff initState =
        ({initState with resolves := initState.resolves + 1, cached := true},
          Except.ok ()))
    ∧ (((Tool.execute envFail2 toolBackoff true true true 7
          {initState with cached := true}).1).cached = true ∧
        ((Tool.execute envFail2 toolBackoff true true true 7
          {initState with cached := true}).1).resolves =
          ({initState with cached := true} : ExecState).resolves)
    ∧ (Tool.execute envFail2 toolGrpc true true true 7 initState =
        (initState, Except.error ⟨"NotImplementedError",
          "Protocol " ++ toolGrpc.execution.endpoint.type ++ " not yet supported"⟩))
    ∧ (Tool.init { raw := (0 : Nat), manifest := some manifestDocC,
                   capabilities := some 0, execution := some toolGrpc.execution,
                   usage_guidance := some ugC, error_handling := none } =
        Except.ok { spec := 0, manifest := ToolManifest.fromDict manifestDocC,
                    capabilities := 0, execution := toolGrpc.execution,
                    usage_guidance := ugC, error_handlers := [] }) :=
  ⟨aitool_c8_lazy_resolution.1 envFail2 toolBackoff {initState with cached := true} rfl,
   aitool_c8_lazy_resolution.2.1 envFail2 toolBackoff initState rfl rfl rfl,
   aitool_c8_lazy_resolution.2.2.1 envFail2 toolBackoff true true true 7
     {initState with cached := true} rfl,
   aitool_c8_lazy_resolution.2.2.2.1 envFail2 toolGrpc true true 7 initState rfl
     (by decide) rfl,
   aitool_c8_lazy_resolution.2.2.2.2 String Nat 0 manifestDocC 0
     toolGrpc.execution ugC⟩

/-! ### Registry lemmas -/

theorem matchesTrigger_iff {S V : Type} (tool : Tool S V) (q : String) :
    Tool.matchesTrigger tool q = true ↔
      ∃ ts ∈ tool.usage_guidance.when_to_use.getD [],
        (∃ w ∈ pySplit ts.trigger.toLower, SubstrOf w q.toLower) ∨
        (∃ ex ∈ ts.examples.getD [], SubstrOf ex.toLower q.toLower) := by
  unfold Tool.matchesTrigger
  rw [List.any_eq_true]
  constructor
  · rintro ⟨ts, hts, hb⟩
    simp only [Bool.or_eq_true, List.any_eq_true, pyIn_iff] at hb
    rcases hb with ⟨w, hw, hsub⟩ | ⟨x, hx, hsub⟩
    · exact ⟨ts, hts, Or.inl ⟨w, hw, hsub⟩⟩
    · obtain ⟨ex, hex, rfl⟩ := List.mem_map.mp hx
      exact ⟨ts, hts, Or.inr ⟨ex, hex, hsub⟩⟩
  · rintro ⟨ts, hts, h⟩
    refine ⟨ts, hts, ?_⟩
    simp only [Bool.or_eq_true, List.any_eq_true, pyIn_iff]
    rcases h with ⟨w, hw, hsub⟩ | ⟨ex, hex, hsub⟩
    · exact Or.inl ⟨w, hw, hsub⟩
    · exact Or.inr ⟨ex.toLower, List.mem_map_of_mem String.toLower hex, hsub⟩

theorem dictInsert_append {α : Type} (l : List (String × α)) (k : String) (v : α)
    (h : ∀ p ∈ l, p.1 ≠ k) : dictInsert l k v = l ++ [(k, v)] := by
  unfold dictInsert
  rw [if_neg]
  rw [List.any_eq_true]
  rintro ⟨p, hp, hpk⟩
  exact h p hp (by simpa using hpk)

theorem registerAll_tools {S V : Type} :
    ∀ (l : List (Tool S V)) (reg : ToolRegistry S V),
      (l.map (fun t => t.manifest.id)).Nodup →
      (∀ p ∈ reg.tools, ∀ t ∈ l, p.1 ≠ t.manifest.id) →
      (l.foldl ToolRegistry.registerTool reg).tools =
        reg.tools ++ l.map (fun t => (t.manifest.id, t)) := by
  intro l
  induction l with
  | nil => intro reg _ _; simp
  | cons t ts ih =>
    intro reg hnodup hdisj
    rw [List.foldl_cons]
    have htools : (ToolRegistry.registerTool reg t).tools =
        reg.tools ++ [(t.manifest.id, t)] :=
      dictInsert_append reg.tools t.manifest.id t
        (fun p hp => hdisj p hp t (List.mem_cons_self t ts))
    have hpair : (∀ x ∈ ts, ¬ x.manifest.id = t.manifest.id) ∧
        (ts.map (fun x => x.manifest.id)).Nodup := by simpa using hnodup
    have hd2 : ∀ p ∈ (ToolRegistry.registerTool reg t).tools,
        ∀ u ∈ ts, p.1 ≠ u.manifest.id := by
      rw [htools]
      intro p hp u hu
      rcases List.mem_append.mp hp with hp1 | hp2
      · exact hdisj p hp1 u (List.mem_cons_of_mem t hu)
      · rcases List.mem_singleton.mp hp2 with rfl
        intro hEq
        exact hpair.1 u hu hEq.symm
    rw [ih (ToolRegistry.registerTool reg t) hpair.2 hd2, htools]
    simp

/-! ### Claim C9 -/

/-- C9: `find_tools` returns exactly the registered tools passing every
supplied filter — exact category match, the tool carrying every
requested tag, and the trigger heuristic for the query: the query filter
matches a tool iff, case-insensitively, some whitespace-delimited word
of a declared trigger phrase occurs as a substring of the query, or some
declared example phrase occurs as a substring of the query.  Registering
any list of tools with distinct ids all under category `c` makes
`find(category=c)` return exactly those tools, whatever the
registration order. -/
theorem aitool_c9_find_tools :
    (∀ {S V : Type} (tool : Tool S V) (q : String),
      Tool.matchesTrigger tool q = true ↔
        ∃ ts ∈ tool.usage_guidance.when_to_use.getD [],
          (∃ w ∈ pySplit ts.trigger.toLower, SubstrOf w q.toLower) ∨
          (∃ ex ∈ ts.examples.getD [], SubstrOf ex.toLower q.toLower))
    ∧ (∀ {S V : Type} (reg : ToolRegistry S V) (cat : Option String)
        (tags : Option (List String)) (q : Option String) (t : Tool S V),
        t ∈ ToolRegistry.findTools reg cat tags q ↔
          t ∈ reg.tools.map Prod.snd
          ∧ (∀ c, cat = some c → c ≠ "" → t.manifest.category = c)
          ∧ (∀ l, tags = some l → ∀ tag ∈ l, tag ∈ t.manifest.tags)
          ∧ (∀ s, q = some s → s ≠ "" → Tool.matchesTrigger t s = true))
    ∧ (∀ {S V : Type} (l : List (Tool S V)) (c : String), c ≠ "" →
        (l.map (fun t => t.manifest.id)).Nodup →
        (∀ t ∈ l, t.manifest.category = c) →
        ToolRegistry.findTools (ToolRegistry.registerAll l) (some c) none none = l) := by
  refine ⟨?_, ?_, ?_⟩
  · intro S V tool q
    exact matchesTrigger_iff tool q
  · intro S V reg cat tags q t
    unfold ToolRegistry.findTools
    rw [List.mem_filter]
    refine and_congr_right (fun _ => ?_)
    rw [Bool.and_eq_true, Bool.and_eq_true, and_assoc]
    refine and_congr ?_ (and_congr ?_ ?_)
    · rcases cat with _ | c
      · simp
      · simp only [Bool.or_eq_true, decide_eq_true_iff]
        constructor
        · rintro (h | h) c2 hc2 hne <;> cases Option.some.inj hc2
          · exact absurd h hne
          · exact h
        · intro h
          by_cases hce : c = ""
          · exact Or.inl hce
          · exact Or.inr (h c rfl hce)
    · rcases tags with _ | ts
      · simp
      · simp only [Bool.or_eq_true, decide_eq_true_iff, List.all_eq_true]
        constructor
        · rintro (h | h) l2 hl2 tag htag <;> cases Option.some.inj hl2
          · subst h; cases htag
          · have := h tag htag
            simpa [List.contains_iff_exists_mem_beq] using this
        · intro h
          rcases hts : ts with _ | ⟨a, as⟩
          · exact Or.inl rfl
          · refine Or.inr ?_
            intro tag htag
            have := h ts rfl tag (by rw [hts]; exact htag)
            simpa [List.contains_iff_exists_mem_beq] using this
    · rcases q with _ | s
      · simp
      · simp only [Bool.or_eq_true, decide_eq_true_iff]
        constructor
        · rintro (h | h) s2 hs2 hne <;> cases Option.some.inj hs2
          · exact absurd h hne
          · exact h
        · intro h
          by_cases hse : s = ""
          · exact Or.inl hse
          · exact Or.inr (h s rfl hse)
  · intro S V l c hc hnodup hcat
    have htools : (ToolRegistry.registerAll l).tools =
        l.map (fun t => (t.manifest.id, t)) := by
      unfold ToolRegistry.registerAll
      rw [registerAll_tools l ToolRegistry.empty hnodup
        (fun p hp => absurd hp (List.not_mem_nil p))]
      rfl
    unfold ToolRegistry.findTools
    rw [htools, List.map_map]
    have hmap : l.map (Prod.snd ∘ fun t => (t.manifest.id, t)) = l := by
      rw [show (Prod.snd ∘ fun t : Tool S V => (t.manifest.id, t)) = id from rfl,
        List.map_id]
    rw [hmap, List.filter_eq_self]
    intro t ht
    simp [hcat t ht]

/-- A second tool with a distinct id, same category. -/
def toolB : Tool String Nat :=
  { spec := 0,
    manifest := { id := "t2", name := "tool-two", version := "1.0.0",
                  display_name := none, description := "", category := "data",
                  tags := ["a"], provider := [] },
    capabilities := 0, execution := execC, usage_guidance := ugC,
    error_handlers := [] }

/-- C9 witness: two tools with distinct ids registered under category
`data` are exactly what `find(category="data")` returns. -/
theorem aitool_c9_witness :
    ToolRegistry.findTools (ToolRegistry.registerAll [toolBackoff, toolB])
      (some "data") none none = [toolBackoff, toolB] :=
  aitool_c9_find_tools.2.2 [toolBackoff, toolB] "data" (by decide) (by decide)
    (by decide)

/-! ### Claim C10 -/

/-- A retry-with-backoff rule declaring `max_retries=0` and
`backoff_ms=[]`. -/
def ruleZero : ErrorRecovery :=
  { error_type := "boom", error_code := some "RuntimeError",
    strategy := RecoveryStrategy.retry_with_backoff,
    max_retries := some 0, backoff_ms := some [], wait_seconds := none,
    fallback_tool := none, message_to_user := none }

/-- A tool whose only recovery rule is `ruleZero`. -/
def toolZero : Tool String Nat :=
  { spec := 0, manifest := manifestC, capabilities := 0, execution := execC,
    usage_guidance := ugC, error_handlers := [ruleZero] }

/-- A wait-and-retry rule declaring `wait_seconds=0`. -/
def ruleWaitZero : ErrorRecovery :=
  { error_type := "boom", error_code := some "RuntimeError",
    strategy := RecoveryStrategy.wait_and_retry,
    max_retries := none, backoff_ms := none, wait_seconds := some 0,
    fallback_tool := none, message_to_user := none }

/-- A tool whose only recovery rule is `ruleWaitZero`. -/
def toolWaitZero : Tool String Nat :=
  { spec := 0, manifest := manifestC, capabilities := 0, execution := execC,
    usage_guidance := ugC, error_handlers := [ruleWaitZero] }

/-- C10: a configured numeric recovery value of zero is treated as unset
(Python `or` falsiness): `max_retries=0` and `backoff_ms=[]` fall back
to the defaults exactly as a missing value does, so a matched
retry-with-backoff rule declaring them still performs 3 attempts with
the default 1000ms and 2000ms sleeps, and a wait-and-retry rule
declaring `wait_seconds=0` still sleeps the default 1 second before its
single retry. -/
theorem aitool_c10_zero_is_unset :
    (∀ d : Nat, pyOrNat (some 0) d = pyOrNat none d)
    ∧ (∀ d : List Nat, pyOrList (some []) d = pyOrList none d)
    ∧ (∀ d : Rat, pyOrRat (some 0) d = pyOrRat none d)
    ∧ (Tool.execute envAllFail toolZero true true true 7 initState =
        ({ cached := true, resolves := 1, calls := 4,
           sleeps := [(1000 : Rat)/1000, (2000 : Rat)/1000], warnings := [] },
          Except.error errBoom))
    ∧ (Tool.execute envFailOnce toolWaitZero true true true 7 initState =
        ({ cached := true, resolves := 1, calls := 2, sleeps := [(1 : Rat)],
           warnings := [] }, Except.ok 42)) :=
  ⟨fun _ => rfl, fun _ => rfl, fun _ => rfl, rfl, rfl⟩

end AIToolJson
